import Mathlib

/-!
Shallow embedding of the authentication and session-lifecycle core of the
NestJs_boilerplate repository: `AuthService` (auth.service.ts),
`JwtStrategy.validate` (jwt.strategy.ts), `ReportsService.banUser`
(reports.service.ts) and `TokenCleanupService.cleanupExpiredTokens`
(token-cleanup.service.ts), over the Prisma data model (users,
refresh_tokens, token_blacklist, email_verification_tokens,
password_reset_tokens).

Modelling conventions:
- Timestamps (`Date` values) are `Nat` milliseconds.
- `crypto.createHash('sha256')` on tokens is modelled as a collision-free
  injective map `hashToken` into the one-constructor type `TokenHash`.
- `bcrypt.hash` / `bcrypt.compare` are modelled by the type `PwHash`:
  `bcrypt.compare p h` is true exactly when `h` is the bcrypt hash of `p`;
  the fixed dummy hash used against timing attacks is the extra
  constructor `PwHash.dummy`, which matches no password (the source
  comments state the dummy hash never matches a real password).
- Database tables are lists of records; Prisma `findUnique`/`findFirst`
  are `List.find?` (the relevant keys are unique), `updateMany`/`update`
  are `List.map` with a conditional update, `deleteMany` is a filter, and
  `create` appends.  A `$transaction` is a single Lean function producing
  the next database state, which makes the multi-write atomic by
  construction.
- Randomly generated values (fresh JWTs, the 6-digit code, database ids)
  are passed in as explicit parameters.
-/

namespace NestAuth

/-- Result of `bcrypt.hash(password, saltRounds)`, modelled as an injective
constructor, plus the fixed dummy hash constant of `validateUser`
(the literal string starting `$2b$10$N9qo...` in auth.service.ts), which by the
source's own comment matches no password. -/
inductive PwHash where
  | bcrypt (password : String)
  | dummy
deriving DecidableEq

/-- Result of `crypto.createHash('sha256').update(token).digest('hex')`,
modelled as a collision-free injective map. -/
inductive TokenHash where
  | sha256 (token : String)
deriving DecidableEq

/-- AuthService.hashToken. -/
def hashToken (token : String) : TokenHash :=
  TokenHash.sha256 token

/-- AuthService.comparePassword: `bcrypt.compare(plain, hashed)`. -/
def comparePassword (plainPassword : String) (hashedPassword : PwHash) : Bool :=
  hashedPassword == PwHash.bcrypt plainPassword

/-- The fixed dummy hash of AuthService.validateUser. -/
def dummyHash : PwHash :=
  PwHash.dummy

/-- Row of the `users` table (fields relevant to the auth core). -/
structure User where
  id : String
  email : String
  password : Option PwHash
  nickname : String
  role : String
  provider : String
  providerId : Option String
  isVerified : Bool
  isBanned : Bool
  bannedAt : Option Nat
  bannedUntil : Option Nat
  banReason : Option String
  termsAgreedAt : Option Nat
  privacyAgreedAt : Option Nat
deriving DecidableEq

/-- Row of the `refresh_tokens` table. -/
structure RefreshToken where
  tokenHash : TokenHash
  userId : String
  expiresAt : Nat
  revokedAt : Option Nat
deriving DecidableEq

/-- Row of the `token_blacklist` table.  In the database, `revokedAt`
defaults to `CURRENT_TIMESTAMP`; the model passes the insertion time
explicitly. -/
structure TokenBlacklistEntry where
  userId : String
  revokedAt : Nat
  expiresAt : Nat
  reason : Option String
deriving DecidableEq

/-- Row of the `email_verification_tokens` table.  `id` is the database
cuid, modelled as a `Nat`.  The `attempts` and `maxAttempts` columns are
read by AuthService.verifyEmail. -/
structure EmailVerificationToken where
  id : Nat
  tokenHash : TokenHash
  userId : String
  expiresAt : Nat
  createdAt : Nat
  verifiedAt : Option Nat
  attempts : Nat
  maxAttempts : Nat
deriving DecidableEq

/-- Row of the `password_reset_tokens` table. -/
structure PasswordResetToken where
  tokenHash : TokenHash
  userId : String
  expiresAt : Nat
  usedAt : Option Nat
deriving DecidableEq

/-- The persistent state the auth core operates on. -/
structure Db where
  users : List User
  refreshTokens : List RefreshToken
  tokenBlacklist : List TokenBlacklistEntry
  emailVerificationTokens : List EmailVerificationToken
  passwordResetTokens : List PasswordResetToken
deriving DecidableEq

/-- Errors thrown by the auth core.  The source distinguishes exceptions
only by HTTP class and message string, so the model carries the exact
message strings. -/
inductive AppError where
  | unauthorized (message : String)
  | badRequest (message : String)
  | conflict (message : String)
deriving DecidableEq

/-- AuthService.REFRESH_TOKEN_EXPIRY_DAYS = 7, in milliseconds. -/
def REFRESH_TOKEN_EXPIRY_MS : Nat :=
  7 * 24 * 60 * 60 * 1000

/-- AuthService.EMAIL_VERIFICATION_EXPIRY_MINUTES = 10, in milliseconds. -/
def EMAIL_VERIFICATION_EXPIRY_MS : Nat :=
  10 * 60 * 1000

/-- AuthService.PASSWORD_RESET_EXPIRY_HOURS = 1, in milliseconds. -/
def PASSWORD_RESET_EXPIRY_MS : Nat :=
  60 * 60 * 1000

/-- AuthService.calculateAccessTokenExpiry: `jwt.expiresIn` defaults to
`'15m'`, so the blacklist entry expires 15 minutes after insertion. -/
def calculateAccessTokenExpiry (now : Nat) : Nat :=
  now + 15 * 60 * 1000

/-- Prisma `user.findUnique({ where: { email } })`. -/
def findUserByEmail (db : Db) (email : String) : Option User :=
  db.users.find? (fun u => u.email == email)

/-- Prisma `user.findUnique({ where: { id } })`. -/
def findUserById (db : Db) (id : String) : Option User :=
  db.users.find? (fun u => u.id == id)

/-- Prisma `refreshToken.findUnique({ where: { tokenHash } })`. -/
def findRefreshToken (db : Db) (tokenHash : TokenHash) : Option RefreshToken :=
  db.refreshTokens.find? (fun r => r.tokenHash == tokenHash)

/-- Prisma `passwordResetToken.findUnique({ where: { tokenHash } })`. -/
def findResetToken (db : Db) (tokenHash : TokenHash) : Option PasswordResetToken :=
  db.passwordResetTokens.find? (fun t => t.tokenHash == tokenHash)

/-- AuthService.refresh (auth.service.ts): validates the stored session for
the presented refresh token and, on success, in one transaction revokes the
old session row and inserts the freshly signed refresh token's row.
`newRefreshToken` is the freshly signed refresh JWT (the signing collaborator
is external); the access token in the returned `TokenDto` is omitted from the
model. -/
def refresh (db : Db) (userId : String) (oldRefreshToken : String) (now : Nat)
    (newRefreshToken : String) : Except AppError (Db × String) :=
  let tokenHash := hashToken oldRefreshToken
  match findRefreshToken db tokenHash with
  | none => .error (.unauthorized "유효하지 않은 토큰입니다")
  | some storedToken =>
    if storedToken.revokedAt.isSome then
      .error (.unauthorized "토큰이 무효화되었습니다")
    else if storedToken.expiresAt < now then
      .error (.unauthorized "토큰이 만료되었습니다")
    else if storedToken.userId ≠ userId then
      .error (.unauthorized "사용자 정보가 일치하지 않습니다")
    else
      let newExpiresAt := now + REFRESH_TOKEN_EXPIRY_MS
      let db2 : Db := { db with refreshTokens :=
        (db.refreshTokens.map (fun r =>
          if r.tokenHash == tokenHash then { r with revokedAt := some now } else r))
        ++ [{ tokenHash := hashToken newRefreshToken, userId := storedToken.userId,
              expiresAt := newExpiresAt, revokedAt := none }] }
      .ok (db2, newRefreshToken)

/-- AuthService.logout: idempotent; on a live session, in one transaction
revokes it and inserts a blacklist entry for its owner. -/
def logout (db : Db) (refreshToken : String) (now : Nat) : Db :=
  let tokenHash := hashToken refreshToken
  match findRefreshToken db tokenHash with
  | none => db
  | some storedToken =>
    if storedToken.revokedAt.isSome then db
    else
      { db with
        refreshTokens := db.refreshTokens.map (fun r =>
          if r.tokenHash == tokenHash then { r with revokedAt := some now } else r),
        tokenBlacklist := db.tokenBlacklist ++
          [{ userId := storedToken.userId, revokedAt := now,
             expiresAt := calculateAccessTokenExpiry now, reason := none }] }

/-- TokenCleanupService.cleanupExpiredTokens: deletes refresh-token rows
that are expired or revoked, and expired blacklist rows. -/
def cleanupExpiredTokens (db : Db) (now : Nat) : Db :=
  { db with
    refreshTokens := db.refreshTokens.filter (fun r =>
      !(decide (r.expiresAt < now) || r.revokedAt.isSome)),
    tokenBlacklist := db.tokenBlacklist.filter (fun b =>
      !decide (b.expiresAt < now)) }

/-- ReportsService.banUser (reports.service.ts), core transaction: sets the
ban fields, deletes all of the user's refresh tokens, and inserts a
blacklist entry whose `expiresAt` is 15 minutes ahead (`Date.now() + 15 *
60 * 1000`) and whose `revokedAt` takes the database default
`CURRENT_TIMESTAMP`, i.e. the ban time. -/
def banUser (db : Db) (targetUserId : String) (bannedUntil : Option Nat)
    (reason : String) (now : Nat) : Db :=
  let accessTokenExpiry := now + 15 * 60 * 1000
  { db with
    users := db.users.map (fun u =>
      if u.id == targetUserId then
        { u with isBanned := true, bannedAt := some now,
                 bannedUntil := bannedUntil, banReason := some reason }
      else u),
    refreshTokens := db.refreshTokens.filter (fun r => !(r.userId == targetUserId)),
    tokenBlacklist := db.tokenBlacklist ++
      [{ userId := targetUserId, revokedAt := now,
         expiresAt := accessTokenExpiry, reason := some "user_ban" }] }

/-- Payload of a signature-verified access token. -/
structure JwtPayload where
  sub : String
  email : String
  role : String
  iat : Nat
deriving DecidableEq

/-- The payload JwtStrategy.validate returns to the request pipeline. -/
structure ValidatedUser where
  sub : String
  email : String
  role : String
deriving DecidableEq

/-- The Prisma `UserRole` enum (`USER`, `ADMIN`); the strategy checks
`Object.values(UserRole).includes(payload.role)`. -/
def isValidRole (role : String) : Bool :=
  role == "USER" || role == "ADMIN"

/-- JwtStrategy.validate (jwt.strategy.ts): runs after signature and
natural-expiry verification.  Rejects a payload with a missing subject or
unknown role, then rejects if a blacklist entry for the subject has
`revokedAt >= iat * 1000` and `expiresAt > now`, then rejects if the
account's current ban state is active. -/
def jwtValidate (db : Db) (payload : JwtPayload) (now : Nat) :
    Except AppError ValidatedUser :=
  if payload.sub == "" || !isValidRole payload.role then
    .error (.unauthorized "유효하지 않은 토큰입니다")
  else
    let tokenIssuedAt := payload.iat * 1000
    match db.tokenBlacklist.find? (fun b =>
        b.userId == payload.sub && decide (tokenIssuedAt ≤ b.revokedAt)
          && decide (now < b.expiresAt)) with
    | some _ => .error (.unauthorized "인증이 만료되었습니다. 다시 로그인해주세요.")
    | none =>
      match findUserById db payload.sub with
      | some user =>
        if user.isBanned then
          match user.bannedUntil with
          | none =>
            .error (.unauthorized "계정이 정지되었습니다. 관리자에게 문의하세요.")
          | some bannedUntil =>
            if now < bannedUntil then
              .error (.unauthorized "계정이 정지되었습니다. 관리자에게 문의하세요.")
            else
              .ok { sub := payload.sub, email := payload.email, role := payload.role }
        else
          .ok { sub := payload.sub, email := payload.email, role := payload.role }
      | none => .ok { sub := payload.sub, email := payload.email, role := payload.role }

/-- AuthService.getBanMessage.  `toLocaleString` is modelled as `toString`
on the millisecond timestamp. -/
def getBanMessage (bannedUntil : Option Nat) (banReason : Option String)
    (now : Nat) : String :=
  match bannedUntil with
  | none =>
    "계정이 영구 정지되었습니다." ++
      (match banReason with | some r => " 사유: " ++ r | none => "")
  | some u =>
    if u ≤ now then ""
    else
      "계정이 " ++ toString u ++ "까지 정지되었습니다." ++
        (match banReason with | some r => " 사유: " ++ r | none => "")

/-- AuthService.validateUser: looks the account up by email, always runs
exactly one bcrypt comparison (against the dummy hash when the account is
missing or has no password), and returns the generic credentials error for
both a missing account and a wrong password.  The second component records
the hashes that `comparePassword` was invoked on, the first component the
(possibly auto-unbanned) database state, the third the outcome. -/
def validateUser (db : Db) (email password : String) (now : Nat) :
    Db × List PwHash × Except AppError User :=
  let found := findUserByEmail db email
  let passwordToCompare :=
    match found with
    | some u => u.password.getD dummyHash
    | none => dummyHash
  let isPasswordValid := comparePassword password passwordToCompare
  let compared := [passwordToCompare]
  match found with
  | none =>
    (db, compared, .error (.unauthorized "이메일 또는 비밀번호가 올바르지 않습니다"))
  | some user =>
    if !isPasswordValid then
      (db, compared, .error (.unauthorized "이메일 또는 비밀번호가 올바르지 않습니다"))
    else if user.password.isNone then
      (db, compared,
        .error (.unauthorized "소셜 로그인으로 가입된 계정입니다. 해당 소셜 로그인을 이용해주세요."))
    else if user.isBanned then
      match user.bannedUntil with
      | some bannedUntil =>
        if bannedUntil ≤ now then
          ({ db with users := db.users.map (fun u =>
              if u.id == user.id then
                { u with isBanned := false, bannedAt := none,
                         bannedUntil := none, banReason := none }
              else u) },
           compared, .ok user)
        else
          (db, compared,
            .error (.unauthorized (getBanMessage (some bannedUntil) user.banReason now)))
      | none =>
        (db, compared,
          .error (.unauthorized (getBanMessage none user.banReason now)))
    else
      (db, compared, .ok user)

/-- The `OAuthUserDto` handed to AuthService.findOrCreateOAuthUser. -/
structure OAuthUserDto where
  provider : String
  providerId : String
  email : String
  nickname : String
  profileImage : Option String
deriving DecidableEq

/-- Provider display-name mapping used for the conflict message in
AuthService.findOrCreateOAuthUser. -/
def providerDisplayName (provider : String) : String :=
  if provider == "local" then "이메일/비밀번호"
  else if provider == "google" then "구글"
  else if provider == "kakao" then "카카오"
  else if provider == "naver" then "네이버"
  else provider

/-- AuthService.findOrCreateOAuthUser: an exact `(provider, providerId)`
match returns the existing account; otherwise an existing account with the
same email under any provider is a conflict (no automatic linking); only a
brand-new email creates a new pre-verified account.  `newUserId` models the
database-generated cuid; the new account's role takes the schema default
`USER`. -/
def findOrCreateOAuthUser (db : Db) (data : OAuthUserDto) (now : Nat)
    (newUserId : String) : Db × Except AppError User :=
  match db.users.find? (fun u =>
      u.provider == data.provider && u.providerId == some data.providerId) with
  | some user => (db, .ok user)
  | none =>
    match findUserByEmail db data.email with
    | some existingUser =>
      (db, .error (.conflict ("이미 " ++ providerDisplayName existingUser.provider ++
        "로 가입된 이메일입니다. 해당 방식으로 로그인해주세요.")))
    | none =>
      let user : User :=
        { id := newUserId, email := data.email, password := none,
          nickname := data.nickname, role := "USER", provider := data.provider,
          providerId := some data.providerId, isVerified := true,
          isBanned := false, bannedAt := none, bannedUntil := none,
          banReason := none, termsAgreedAt := some now, privacyAgreedAt := some now }
      ({ db with users := db.users ++ [user] }, .ok user)

/-- AuthService.sendVerificationEmail: consumes every unconsumed
verification token of the account (`updateMany` setting `verifiedAt`),
then stores the hash of the freshly generated code.  `code` models the
generated 6-digit code and `newId` the database-generated row id.
Modelled from the spec: the `attempts` and `maxAttempts` column defaults
(counter at zero, max-attempts 5) — the Prisma schema file declaring them
is not among the provided sources, only the code reading the columns.
`freshVerificationToken` is the row the `create` call inserts. -/
def freshVerificationToken (userId code : String) (now : Nat) (newId : Nat) :
    EmailVerificationToken :=
  { id := newId, tokenHash := hashToken code, userId := userId,
    expiresAt := now + EMAIL_VERIFICATION_EXPIRY_MS, createdAt := now,
    verifiedAt := none, attempts := 0, maxAttempts := 5 }

/-- AuthService.sendVerificationEmail, continued: the consume-then-insert
write pair, one atomic state update. -/
def sendVerificationEmail (db : Db) (userId : String) (code : String)
    (now : Nat) (newId : Nat) : Db :=
  { db with emailVerificationTokens :=
      (db.emailVerificationTokens.map (fun t =>
        if t.userId == userId && t.verifiedAt.isNone then
          { t with verifiedAt := some now }
        else t))
      ++ [freshVerificationToken userId code now newId] }

/-- A verification token is live for an account: owned by it, unconsumed
(`verifiedAt` null) and unexpired (`expiresAt > now`), the `where` clause
of the `findFirst` in AuthService.verifyEmail. -/
def isLive (t : EmailVerificationToken) (userId : String) (now : Nat) : Bool :=
  t.userId == userId && t.verifiedAt.isNone && decide (now < t.expiresAt)

/-- Prisma `findFirst({ where: live, orderBy: { createdAt: 'desc' } })`:
the live token with the greatest `createdAt`. -/
def latestLiveToken (db : Db) (userId : String) (now : Nat) :
    Option EmailVerificationToken :=
  (db.emailVerificationTokens.filter (fun t => isLive t userId now)).foldl
    (fun acc t =>
      match acc with
      | none => some t
      | some a => if a.createdAt < t.createdAt then some t else some a) none

/-- The six-digit regex check of AuthService.verifyEmail: exactly 6
characters, all decimal digits (stated over the character list so that it
evaluates by kernel reduction). -/
def isSixDigitCode (code : String) : Bool :=
  code.data.length == 6 && code.data.all (fun c => c.isDigit)

/-- Prisma `emailVerificationToken.update({ where: { id }, data: {
verifiedAt: new Date() } })`. -/
def consumeToken (tokens : List EmailVerificationToken) (id : Nat) (now : Nat) :
    List EmailVerificationToken :=
  tokens.map (fun t => if t.id == id then { t with verifiedAt := some now } else t)

/-- Prisma `emailVerificationToken.update({ where: { id }, data: {
attempts: { increment: 1 } } })`. -/
def incrementAttempts (tokens : List EmailVerificationToken) (id : Nat) :
    List EmailVerificationToken :=
  tokens.map (fun t => if t.id == id then { t with attempts := t.attempts + 1 } else t)

/-- AuthService.verifyEmail: validates the 6-digit format, loads the most
recent live token, consumes it with TooManyAttempts when the counter has
reached the max, increments the counter before comparing the hash, on the
final failed attempt consumes the code, on a match marks the account
verified and the code consumed in one transaction — unless the account is
already verified, in which case it returns the harmless success without
touching the token.  The `latestToken.user` record included by the query
is looked up by `latestToken.userId`; the foreign key guarantees it
exists, and an absent row is treated as unverified. -/
def verifyEmail (db : Db) (userId code : String) (now : Nat) :
    Db × Except AppError String :=
  if !isSixDigitCode code then
    (db, .error (.badRequest "6자리 숫자 코드를 입력해주세요"))
  else
    match latestLiveToken db userId now with
    | none =>
      (db, .error (.badRequest "유효한 인증 코드가 없습니다. 인증 코드를 다시 요청해주세요."))
    | some latestToken =>
      if latestToken.maxAttempts ≤ latestToken.attempts then
        ({ db with emailVerificationTokens :=
            consumeToken db.emailVerificationTokens latestToken.id now },
         .error (.badRequest "인증 시도 횟수를 초과했습니다. 인증 코드를 다시 요청해주세요."))
      else
        let db1 : Db := { db with emailVerificationTokens :=
          (incrementAttempts db.emailVerificationTokens latestToken.id) }
        if latestToken.tokenHash ≠ hashToken code then
          let remainingAttempts := latestToken.maxAttempts - latestToken.attempts - 1
          if remainingAttempts == 0 then
            ({ db1 with emailVerificationTokens :=
                consumeToken db1.emailVerificationTokens latestToken.id now },
             .error (.badRequest "인증 시도 횟수를 초과했습니다. 인증 코드를 다시 요청해주세요."))
          else
            (db1, .error (.badRequest
              ("잘못된 인증 코드입니다 (남은 시도: " ++ toString remainingAttempts ++ "회)")))
        else
          let userVerified :=
            match findUserById db latestToken.userId with
            | some u => u.isVerified
            | none => false
          if userVerified then
            (db1, .ok "이미 인증된 계정입니다")
          else
            ({ db1 with
                users := db1.users.map (fun u =>
                  if u.id == latestToken.userId then { u with isVerified := true } else u),
                emailVerificationTokens :=
                  consumeToken db1.emailVerificationTokens latestToken.id now },
             .ok "이메일 인증이 완료되었습니다")

/-- AuthService.resetPassword: validates the reset token (absent, already
used, expired), then in one transaction sets the new password hash, marks
the token used, revokes every non-revoked refresh token of the account and
inserts a `password_reset` blacklist entry. -/
def resetPassword (db : Db) (token : String) (newPassword : String) (now : Nat) :
    Db × Except AppError Unit :=
  let tokenHash := hashToken token
  match findResetToken db tokenHash with
  | none => (db, .error (.badRequest "유효하지 않은 토큰입니다"))
  | some resetToken =>
    if resetToken.usedAt.isSome then
      (db, .error (.badRequest "이미 사용된 토큰입니다"))
    else if resetToken.expiresAt < now then
      (db, .error (.badRequest "토큰이 만료되었습니다"))
    else
      let hashedPassword := PwHash.bcrypt newPassword
      ({ db with
          users := db.users.map (fun u =>
            if u.id == resetToken.userId then { u with password := some hashedPassword } else u),
          passwordResetTokens := db.passwordResetTokens.map (fun t =>
            if t.tokenHash == tokenHash then { t with usedAt := some now } else t),
          refreshTokens := db.refreshTokens.map (fun r =>
            if r.userId == resetToken.userId && r.revokedAt.isNone then
              { r with revokedAt := some now }
            else r),
          tokenBlacklist := db.tokenBlacklist ++
            [{ userId := resetToken.userId, revokedAt := now,
               expiresAt := calculateAccessTokenExpiry now,
               reason := some "password_reset" }] },
       .ok ())

/-- AuthService.generateVerificationCode: `crypto.randomBytes(3)` yields a
value below `2 ^ 24` (the hex string re-parsed with `parseInt(..., 16)` is
that value), reduced modulo 900000 and shifted by 100000. -/
def generateVerificationCode (randomValue : Nat) : Nat :=
  randomValue % 900000 + 100000

/-- The set of 3-byte random values that produce a given code. -/
def codePreimages (code : Nat) : Finset Nat :=
  (Finset.range (2 ^ 24)).filter (fun b => generateVerificationCode b = code)

/-- The live verification tokens of one account. -/
def liveTokensFor (db : Db) (userId : String) (now : Nat) :
    List EmailVerificationToken :=
  db.emailVerificationTokens.filter (fun t => isLive t userId now)

/-- The one-live-code-per-account invariant of the verification manager. -/
def atMostOneLive (db : Db) (now : Nat) : Prop :=
  ∀ userId, (liveTokensFor db userId now).length ≤ 1

end NestAuth

namespace NestAuth

/-- A baseline local account used by the concrete instantiations below. -/
def sampleUser : User :=
  { id := "u1", email := "alice@example.com",
    password := some (PwHash.bcrypt "Passw0rd!"), nickname := "alice",
    role := "USER", provider := "local", providerId := none,
    isVerified := false, isBanned := false, bannedAt := none,
    bannedUntil := none, banReason := none,
    termsAgreedAt := some 0, privacyAgreedAt := some 0 }

/-- A stored, live session for `sampleUser`. -/
def sampleSession : RefreshToken :=
  { tokenHash := hashToken "rt-old", userId := "u1",
    expiresAt := 1000000, revokedAt := none }

/-- Database with one account and one live session. -/
def sampleDb : Db :=
  { users := [sampleUser], refreshTokens := [sampleSession],
    tokenBlacklist := [], emailVerificationTokens := [],
    passwordResetTokens := [] }

/-- A revoked session for `sampleUser` (for the cleanup scenario). -/
def revokedSession : RefreshToken :=
  { tokenHash := hashToken "rt-rotated", userId := "u1",
    expiresAt := 1000000, revokedAt := some 50 }

/-- Database with one revoked session. -/
def revokedDb : Db :=
  { users := [sampleUser], refreshTokens := [revokedSession],
    tokenBlacklist := [], emailVerificationTokens := [],
    passwordResetTokens := [] }

/-- A live, unconsumed password-reset token for `sampleUser`. -/
def sampleResetToken : PasswordResetToken :=
  { tokenHash := hashToken "reset-raw", userId := "u1",
    expiresAt := 1000000, usedAt := none }

/-- Database with one account, one live session and one reset token. -/
def resetDb : Db :=
  { users := [sampleUser], refreshTokens := [sampleSession],
    tokenBlacklist := [], emailVerificationTokens := [],
    passwordResetTokens := [sampleResetToken] }

/-- An externally-authenticated (OAuth) account: password hash is null. -/
def oauthUser : User :=
  { id := "u2", email := "oauth@example.com", password := none,
    nickname := "bob", role := "USER", provider := "google",
    providerId := some "g1", isVerified := true, isBanned := false,
    bannedAt := none, bannedUntil := none, banReason := none,
    termsAgreedAt := some 0, privacyAgreedAt := some 0 }

/-- Database with a local account and an OAuth account. -/
def mixedDb : Db :=
  { users := [sampleUser, oauthUser], refreshTokens := [],
    tokenBlacklist := [], emailVerificationTokens := [],
    passwordResetTokens := [] }

/-- The OAuth login attempt of the spec scenario: same email as the
existing local account `sampleUser`, under provider google. -/
def conflictingOAuthLogin : OAuthUserDto :=
  { provider := "google", providerId := "g9",
    email := "alice@example.com", nickname := "alice-g",
    profileImage := none }

/-- A live verification code (hash of `123456`) for `sampleUser`, counter
at zero, max-attempts 5. -/
def sampleCode : EmailVerificationToken :=
  { id := 0, tokenHash := hashToken "123456", userId := "u1",
    expiresAt := 1000000, createdAt := 0, verifiedAt := none,
    attempts := 0, maxAttempts := 5 }

/-- Database with an unverified account and one live verification code. -/
def codeDb : Db :=
  { users := [sampleUser], refreshTokens := [], tokenBlacklist := [],
    emailVerificationTokens := [sampleCode], passwordResetTokens := [] }

/-- The same account already verified, with the same live code. -/
def verifiedUser : User :=
  { sampleUser with isVerified := true }

/-- Database with an already-verified account and one live code. -/
def verifiedCodeDb : Db :=
  { users := [verifiedUser], refreshTokens := [], tokenBlacklist := [],
    emailVerificationTokens := [sampleCode], passwordResetTokens := [] }

/-- Five wrong-code attempts against `codeDb` followed by a sixth attempt
with the correct code: the database threading of the scenario in the
spec's attempt-limit property. -/
def attempt1 : Db × Except AppError String := verifyEmail codeDb "u1" "000000" 10
def attempt2 : Db × Except AppError String := verifyEmail attempt1.1 "u1" "000000" 10
def attempt3 : Db × Except AppError String := verifyEmail attempt2.1 "u1" "000000" 10
def attempt4 : Db × Except AppError String := verifyEmail attempt3.1 "u1" "000000" 10
def attempt5 : Db × Except AppError String := verifyEmail attempt4.1 "u1" "000000" 10
def attempt6 : Db × Except AppError String := verifyEmail attempt5.1 "u1" "123456" 10

/-- A conditional per-row update that does not change the value of the
searched predicate commutes with `find?`. -/
theorem find?_map_of_pred {α : Type} (p : α → Bool) (g : α → α)
    (hpg : ∀ a, p (g a) = p a) (l : List α) :
    (l.map g).find? p = (l.find? p).map g := by
  rw [List.find?_map]
  rw [show p ∘ g = p from funext hpg]

/-- A per-row update that never turns a non-matching row into a matching
one cannot increase the number of matching rows. -/
theorem length_filter_map_le {α : Type} (p : α → Bool) (g : α → α)
    (hpg : ∀ a, p (g a) = true → p a = true) (l : List α) :
    ((l.map g).filter p).length ≤ (l.filter p).length := by
  induction l with
  | nil => simp
  | cons a l ih =>
    by_cases ha : p (g a) = true
    · rw [List.map_cons, List.filter_cons_of_pos ha, List.filter_cons_of_pos (hpg a ha)]
      simpa using ih
    · rw [List.map_cons, List.filter_cons_of_neg (by simpa using ha)]
      by_cases ha2 : p a = true
      · rw [List.filter_cons_of_pos ha2]
        exact ih.trans (Nat.le_succ _)
      · rw [List.filter_cons_of_neg (by simpa using ha2)]
        exact ih

end NestAuth

namespace NestAuth

/-- C1: For every stored session, calling Rotate (AuthService.refresh)
twice with the same raw refresh token succeeds exactly once: the first
call atomically (in the single transaction modelled by one state update)
marks the old session revoked and inserts the new session row, and any
second call with the same raw token fails with the RevokedError message
`토큰이 무효화되었습니다`. -/
theorem refresh_rotates_exactly_once
    (db : Db) (userId tok newTok : String) (now : Nat) (r : RefreshToken)
    (hfind : findRefreshToken db (hashToken tok) = some r)
    (hrev : r.revokedAt = none)
    (hexp : ¬ r.expiresAt < now)
    (huid : r.userId = userId)
    (hne : newTok ≠ tok) :
    ∃ db2, refresh db userId tok now newTok = .ok (db2, newTok) ∧
      findRefreshToken db2 (hashToken tok) = some { r with revokedAt := some now } ∧
      ({ tokenHash := hashToken newTok, userId := userId,
         expiresAt := now + REFRESH_TOKEN_EXPIRY_MS,
         revokedAt := none } : RefreshToken) ∈ db2.refreshTokens ∧
      ∀ now2 newTok2, refresh db2 userId tok now2 newTok2 =
        .error (.unauthorized "토큰이 무효화되었습니다") := by
  have hpr : (r.tokenHash == hashToken tok) = true := by
    have := List.find?_some hfind
    simpa using this
  have hpr2 : r.tokenHash = hashToken tok := by simpa using hpr
  have hok : refresh db userId tok now newTok =
      .ok ({ db with refreshTokens :=
        (db.refreshTokens.map (fun rr =>
          if rr.tokenHash == hashToken tok then { rr with revokedAt := some now } else rr))
        ++ [{ tokenHash := hashToken newTok, userId := r.userId,
              expiresAt := now + REFRESH_TOKEN_EXPIRY_MS, revokedAt := none }] }, newTok) := by
    simp only [refresh, hfind, hrev, Option.isSome_none, Bool.false_eq_true, if_false,
      huid, ne_eq, not_true_eq_false, if_false]
    simp [hexp]
  have hmap : ((db.refreshTokens.map (fun rr =>
      if rr.tokenHash == hashToken tok then { rr with revokedAt := some now } else rr)).find?
        (fun rr => rr.tokenHash == hashToken tok))
      = some { r with revokedAt := some now } := by
    rw [find?_map_of_pred]
    · rw [show db.refreshTokens.find? (fun rr => rr.tokenHash == hashToken tok) = some r from hfind]
      simp [hpr2]
    · intro a
      by_cases hpa : (a.tokenHash == hashToken tok) = true
      · simp [hpa]
      · simp [hpa]
  refine ⟨_, hok, ?_, ?_, ?_⟩
  · simp only [findRefreshToken, List.find?_append, hmap, Option.or_some]
  · simp only [List.mem_append, List.mem_singleton]
    right
    rw [huid]
  · intro now2 newTok2
    simp only [refresh, findRefreshToken, List.find?_append, hmap, Option.or_some,
      Option.isSome_some, if_true]

/-- Witness for `refresh_rotates_exactly_once` at a concrete database. -/
theorem refresh_rotates_exactly_once_witness :
    findRefreshToken sampleDb (hashToken "rt-old") = some sampleSession ∧
    sampleSession.revokedAt = none ∧
    ¬ sampleSession.expiresAt < 500 ∧
    sampleSession.userId = "u1" ∧
    ("rt-new" : String) ≠ "rt-old" ∧
    ∃ db2, refresh sampleDb "u1" "rt-old" 500 "rt-new" = .ok (db2, "rt-new") ∧
      findRefreshToken db2 (hashToken "rt-old") =
        some { sampleSession with revokedAt := some 500 } ∧
      ({ tokenHash := hashToken "rt-new", userId := "u1",
         expiresAt := 500 + REFRESH_TOKEN_EXPIRY_MS,
         revokedAt := none } : RefreshToken) ∈ db2.refreshTokens ∧
      ∀ now2 newTok2, refresh db2 "u1" "rt-old" now2 newTok2 =
        .error (.unauthorized "토큰이 무효화되었습니다") :=
  ⟨rfl, rfl, by decide, rfl, by decide,
    refresh_rotates_exactly_once sampleDb "u1" "rt-old" "rt-new" 500 sampleSession
      rfl rfl (by decide) rfl (by decide)⟩

/-- C10: the periodic sweep deletes every refresh-token row that is revoked
or expired (and every expired blacklist row), so a previously rotated or
logged-out refresh token afterwards fails `refresh` with the InvalidToken
message `유효하지 않은 토큰입니다` (record absent), not with the
RevokedError message `토큰이 무효화되었습니다`. -/
theorem cleanup_removes_revoked_then_invalid_token
    (db : Db) (now : Nat) (tok : String) (userId newTok : String) (now2 : Nat)
    (hrev : ∀ r ∈ db.refreshTokens, r.tokenHash = hashToken tok → r.revokedAt ≠ none) :
    (cleanupExpiredTokens db now).refreshTokens
      = db.refreshTokens.filter (fun r =>
          !(decide (r.expiresAt < now) || r.revokedAt.isSome)) ∧
    (cleanupExpiredTokens db now).tokenBlacklist
      = db.tokenBlacklist.filter (fun b => !decide (b.expiresAt < now)) ∧
    (∀ r ∈ (cleanupExpiredTokens db now).refreshTokens,
      r.revokedAt = none ∧ ¬ r.expiresAt < now) ∧
    refresh (cleanupExpiredTokens db now) userId tok now2 newTok =
      .error (.unauthorized "유효하지 않은 토큰입니다") ∧
    AppError.unauthorized "유효하지 않은 토큰입니다" ≠
      AppError.unauthorized "토큰이 무효화되었습니다" := by
  refine ⟨rfl, rfl, ?_, ?_, by decide⟩
  · intro r hr
    rw [cleanupExpiredTokens] at hr
    simp only [List.mem_filter, Bool.not_eq_eq_eq_not, Bool.not_true, Bool.or_eq_false_iff,
      decide_eq_false_iff_not, Option.not_isSome, Option.isNone_iff_eq_none] at hr
    exact ⟨hr.2.2, hr.2.1⟩
  · have hnone : findRefreshToken (cleanupExpiredTokens db now) (hashToken tok) = none := by
      rw [findRefreshToken, List.find?_eq_none]
      intro r hr
      rw [cleanupExpiredTokens] at hr
      simp only [List.mem_filter, Bool.not_eq_eq_eq_not, Bool.not_true, Bool.or_eq_false_iff,
        decide_eq_false_iff_not, Option.not_isSome, Option.isNone_iff_eq_none] at hr
      intro hbeq
      exact hrev r hr.1 (by simpa using hbeq) hr.2.2
    rw [refresh]
    simp only [hnone]

/-- Witness for `cleanup_removes_revoked_then_invalid_token` at a database
holding one revoked session. -/
theorem cleanup_removes_revoked_then_invalid_token_witness :
    (∀ r ∈ revokedDb.refreshTokens,
        r.tokenHash = hashToken "rt-rotated" → r.revokedAt ≠ none) ∧
    refresh (cleanupExpiredTokens revokedDb 100) "u1" "rt-rotated" 200 "rt-x" =
      .error (.unauthorized "유효하지 않은 토큰입니다") :=
  ⟨by decide, (cleanup_removes_revoked_then_invalid_token revokedDb 100 "rt-rotated"
      "u1" "rt-x" 200 (by decide)).2.2.2.1⟩

end NestAuth
namespace NestAuth

/-- C2: after `banUser` completes, an access token issued before the ban
(signature-valid, natural expiry not elapsed) is rejected by
JwtStrategy.validate on the very next request; the ban transaction sets
the ban fields, deletes the account's refresh-token sessions, and inserts
a blacklist entry whose revoked-at equals the ban time, hence is at or
after the token's issued-at. -/
theorem ban_rejects_preissued_token
    (db : Db) (payload : JwtPayload) (untilOpt : Option Nat) (reason : String)
    (now now2 : Nat) (u : User)
    (huser : findUserById db payload.sub = some u)
    (hsub : payload.sub ≠ "")
    (hrole : isValidRole payload.role = true)
    (hiat : payload.iat * 1000 ≤ now)
    (hn : now ≤ now2)
    (hexp : now2 < payload.iat * 1000 + 15 * 60 * 1000) :
    jwtValidate (banUser db payload.sub untilOpt reason now) payload now2 =
      .error (.unauthorized "인증이 만료되었습니다. 다시 로그인해주세요.") ∧
    (banUser db payload.sub untilOpt reason now).refreshTokens.filter
        (fun r => r.userId == payload.sub) = [] ∧
    findUserById (banUser db payload.sub untilOpt reason now) payload.sub =
      some { u with isBanned := true, bannedAt := some now,
                    bannedUntil := untilOpt, banReason := some reason } ∧
    ∃ b ∈ (banUser db payload.sub untilOpt reason now).tokenBlacklist,
      b.userId = payload.sub ∧ b.revokedAt = now ∧ payload.iat * 1000 ≤ b.revokedAt := by
  have hentry : (fun b : TokenBlacklistEntry =>
      b.userId == payload.sub && decide (payload.iat * 1000 ≤ b.revokedAt)
        && decide (now2 < b.expiresAt))
      ({ userId := payload.sub, revokedAt := now,
         expiresAt := now + 15 * 60 * 1000, reason := some "user_ban" }) = true := by
    simp only [beq_self_eq_true, Bool.true_and, Bool.and_eq_true, decide_eq_true_iff]
    exact ⟨hiat, by omega⟩
  refine ⟨?_, ?_, ?_, ?_⟩
  · rw [jwtValidate]
    have hcond : (payload.sub == "" || !isValidRole payload.role) = false := by
      simp [hsub, hrole]
    rw [hcond]
    simp only [Bool.false_eq_true, if_false]
    have hfb : (banUser db payload.sub untilOpt reason now).tokenBlacklist.find?
        (fun b => b.userId == payload.sub && decide (payload.iat * 1000 ≤ b.revokedAt)
          && decide (now2 < b.expiresAt))
        = (db.tokenBlacklist.find? (fun b => b.userId == payload.sub
            && decide (payload.iat * 1000 ≤ b.revokedAt) && decide (now2 < b.expiresAt))).or
          (some { userId := payload.sub, revokedAt := now,
                  expiresAt := now + 15 * 60 * 1000, reason := some "user_ban" }) := by
      rw [banUser]
      rw [List.find?_append]
      congr 1
      exact List.find?_cons_of_pos _ hentry
    rw [hfb]
    cases hfl : db.tokenBlacklist.find? (fun b => b.userId == payload.sub
        && decide (payload.iat * 1000 ≤ b.revokedAt) && decide (now2 < b.expiresAt)) with
    | none => rfl
    | some b => rfl
  · rw [banUser]
    simp only [List.filter_filter]
    rw [List.filter_eq_nil_iff]
    intro a _
    by_cases ha : (a.userId == payload.sub) = true
    · simp [ha]
    · simp [ha]
  · have hpu : (u.id == payload.sub) = true := by
      have := List.find?_some huser
      simpa using this
    have hpu2 : u.id = payload.sub := by simpa using hpu
    rw [banUser, findUserById]
    rw [find?_map_of_pred]
    · rw [show db.users.find? (fun v => v.id == payload.sub) = some u from huser]
      simp [hpu2]
    · intro a
      by_cases hpa : (a.id == payload.sub) = true
      · simp [hpa]
      · simp [hpa]
  · refine ⟨({ userId := payload.sub, revokedAt := now, expiresAt := now + 15 * 60 * 1000, reason := some "user_ban" } : TokenBlacklistEntry), ?_, rfl, rfl, hiat⟩
    rw [banUser]
    simp

/-- Witness for `ban_rejects_preissued_token`: ban the sample account at
time 100 for a day; a token issued at second 0 is rejected at time 200. -/
theorem ban_rejects_preissued_token_witness :
    findUserById sampleDb "u1" = some sampleUser ∧
    jwtValidate (banUser sampleDb "u1" (some 86400000) "spam" 100)
        { sub := "u1", email := "alice@example.com", role := "USER", iat := 0 } 200 =
      .error (.unauthorized "인증이 만료되었습니다. 다시 로그인해주세요.") :=
  ⟨rfl,
    (ban_rejects_preissued_token sampleDb
      { sub := "u1", email := "alice@example.com", role := "USER", iat := 0 }
      (some 86400000) "spam" 100 200 sampleUser rfl (by decide) (by decide)
      (by decide) (by decide) (by decide)).1⟩

end NestAuth
namespace NestAuth

/-- C3: with a valid, unconsumed, unexpired reset token, resetPassword
succeeds and, in its single transaction, sets the new password hash,
marks the token used, revokes every non-revoked session of the account
and inserts a `password_reset` blacklist entry; a second call with the
same raw token fails with the AlreadyUsed message `이미 사용된
토큰입니다` and leaves the state unchanged. -/
theorem resetPassword_single_use
    (db : Db) (token newPassword : String) (now : Nat) (rt : PasswordResetToken)
    (hfind : findResetToken db (hashToken token) = some rt)
    (hunused : rt.usedAt = none)
    (hunexp : ¬ rt.expiresAt < now) :
    ∃ db2, resetPassword db token newPassword now = (db2, .ok ()) ∧
      (∀ u ∈ db2.users, u.id = rt.userId →
        u.password = some (PwHash.bcrypt newPassword)) ∧
      findResetToken db2 (hashToken token) = some { rt with usedAt := some now } ∧
      (∀ r ∈ db2.refreshTokens, r.userId = rt.userId → r.revokedAt ≠ none) ∧
      (∃ b ∈ db2.tokenBlacklist, b.userId = rt.userId ∧ b.revokedAt = now ∧
        b.reason = some "password_reset") ∧
      ∀ now2 pw2, resetPassword db2 token pw2 now2 =
        (db2, .error (.badRequest "이미 사용된 토큰입니다")) := by
  have hok : resetPassword db token newPassword now =
      ({ db with
          users := db.users.map (fun u =>
            if u.id == rt.userId then { u with password := some (PwHash.bcrypt newPassword) } else u),
          passwordResetTokens := db.passwordResetTokens.map (fun t =>
            if t.tokenHash == hashToken token then { t with usedAt := some now } else t),
          refreshTokens := db.refreshTokens.map (fun r =>
            if r.userId == rt.userId && r.revokedAt.isNone then
              { r with revokedAt := some now }
            else r),
          tokenBlacklist := db.tokenBlacklist ++
            [{ userId := rt.userId, revokedAt := now,
               expiresAt := calculateAccessTokenExpiry now,
               reason := some "password_reset" }] }, .ok ()) := by
    rw [resetPassword]
    simp only [hfind, hunused, Option.isSome_none, Bool.false_eq_true, if_false]
    simp [hunexp]
  have hprt : (rt.tokenHash == hashToken token) = true := by
    have := List.find?_some hfind
    simpa using this
  have hprt2 : rt.tokenHash = hashToken token := by simpa using hprt
  have hmap : (db.passwordResetTokens.map (fun t =>
      if t.tokenHash == hashToken token then { t with usedAt := some now } else t)).find?
        (fun t => t.tokenHash == hashToken token)
      = some { rt with usedAt := some now } := by
    rw [find?_map_of_pred]
    · rw [show db.passwordResetTokens.find? (fun t => t.tokenHash == hashToken token) = some rt from hfind]
      simp [hprt2]
    · intro a
      by_cases hpa : (a.tokenHash == hashToken token) = true
      · simp [hpa]
      · simp [hpa]
  refine ⟨_, hok, ?_, ?_, ?_, ?_, ?_⟩
  · intro u hu hid
    simp only [List.mem_map] at hu
    obtain ⟨a, _, ha⟩ := hu
    by_cases hpa : (a.id == rt.userId) = true
    · rw [if_pos hpa] at ha
      rw [← ha]
    · rw [if_neg (by simpa using hpa)] at ha
      rw [← ha] at hid
      exact absurd hid (by simpa using hpa)
  · rw [findResetToken]
    exact hmap
  · intro r hr hid
    simp only [List.mem_map] at hr
    obtain ⟨a, _, ha⟩ := hr
    by_cases hpa : (a.userId == rt.userId && a.revokedAt.isNone) = true
    · rw [if_pos hpa] at ha
      rw [← ha]
      simp
    · rw [if_neg (by simpa using hpa)] at ha
      rw [Bool.and_eq_true] at hpa
      push_neg at hpa
      rw [← ha] at hid
      by_cases hu : (a.userId == rt.userId) = true
      · have := hpa hu
        rw [← ha]
        simpa [Option.isNone_iff_eq_none] using this
      · exact absurd hid (by simpa using hu)
  · exact ⟨({ userId := rt.userId, revokedAt := now, expiresAt := calculateAccessTokenExpiry now, reason := some "password_reset" } : TokenBlacklistEntry), by simp, rfl, rfl, rfl⟩
  · intro now2 pw2
    rw [resetPassword]
    simp only [findResetToken, hmap, Option.isSome_some, if_true]

/-- Witness for `resetPassword_single_use` at a concrete database. -/
theorem resetPassword_single_use_witness :
    findResetToken resetDb (hashToken "reset-raw") = some sampleResetToken ∧
    sampleResetToken.usedAt = none ∧
    ¬ sampleResetToken.expiresAt < 500 ∧
    ∃ db2, resetPassword resetDb "reset-raw" "NewPassw0rd!" 500 = (db2, .ok ()) ∧
      (∀ u ∈ db2.users, u.id = sampleResetToken.userId →
        u.password = some (PwHash.bcrypt "NewPassw0rd!")) ∧
      findResetToken db2 (hashToken "reset-raw") =
        some { sampleResetToken with usedAt := some 500 } ∧
      (∀ r ∈ db2.refreshTokens, r.userId = sampleResetToken.userId →
        r.revokedAt ≠ none) ∧
      (∃ b ∈ db2.tokenBlacklist, b.userId = sampleResetToken.userId ∧
        b.revokedAt = 500 ∧ b.reason = some "password_reset") ∧
      ∀ now2 pw2, resetPassword db2 "reset-raw" pw2 now2 =
        (db2, .error (.badRequest "이미 사용된 토큰입니다")) :=
  ⟨rfl, rfl, by decide,
    resetPassword_single_use resetDb "reset-raw" "NewPassw0rd!" 500 sampleResetToken
      rfl rfl (by decide)⟩

end NestAuth
namespace NestAuth

/-- C4: when no account matches the exact `(provider, providerId)` pair,
`findOrCreateOAuthUser` fails with a ConflictError and changes nothing if
any account (under any provider) already holds the email, and creates a
new pre-verified account only when the email matches no existing
account. -/
theorem findOrCreateOAuthUser_no_auto_link
    (db : Db) (data : OAuthUserDto) (now : Nat) (newUserId : String)
    (hprov : db.users.find? (fun u =>
      u.provider == data.provider && u.providerId == some data.providerId) = none) :
    (∀ ex, findUserByEmail db data.email = some ex →
      findOrCreateOAuthUser db data now newUserId =
        (db, .error (.conflict ("이미 " ++ providerDisplayName ex.provider ++
          "로 가입된 이메일입니다. 해당 방식으로 로그인해주세요.")))) ∧
    (findUserByEmail db data.email = none →
      ∃ u, findOrCreateOAuthUser db data now newUserId =
          ({ db with users := db.users ++ [u] }, .ok u) ∧
        u.isVerified = true ∧ u.password = none ∧ u.email = data.email ∧
        u.provider = data.provider ∧ u.providerId = some data.providerId) := by
  constructor
  · intro ex hex
    rw [findOrCreateOAuthUser, hprov, hex]
  · intro hnone
    rw [findOrCreateOAuthUser, hprov, hnone]
    exact ⟨_, rfl, rfl, rfl, rfl, rfl, rfl⟩

/-- Witness for `findOrCreateOAuthUser_no_auto_link`: the spec scenario —
google login with the email of the existing local account fails with the
conflict error and modifies nothing. -/
theorem findOrCreateOAuthUser_no_auto_link_witness :
    mixedDb.users.find? (fun u =>
      u.provider == conflictingOAuthLogin.provider &&
        u.providerId == some conflictingOAuthLogin.providerId) = none ∧
    findUserByEmail mixedDb "alice@example.com" = some sampleUser ∧
    findOrCreateOAuthUser mixedDb conflictingOAuthLogin 700 "u-new" =
      (mixedDb, .error (.conflict ("이미 " ++ providerDisplayName "local" ++
        "로 가입된 이메일입니다. 해당 방식으로 로그인해주세요."))) :=
  ⟨by decide, rfl,
    (findOrCreateOAuthUser_no_auto_link mixedDb conflictingOAuthLogin 700 "u-new"
      (by decide)).1 sampleUser rfl⟩

end NestAuth
namespace NestAuth

/-- C5 (divergence witness): for an account whose password hash is null,
`validateUser` throws the generic InvalidCredentials message for any
password, because the always-performed dummy-hash comparison fails and the
generic `!user || !isPasswordValid` check precedes the null-password
branch; the distinct use-your-original-sign-in-method error is never
reached, contradicting the spec's stated behaviour. -/
theorem validateUser_nullpassword_generic_error
    (db : Db) (email password : String) (now : Nat) (u : User)
    (hfind : findUserByEmail db email = some u)
    (hpw : u.password = none) :
    (validateUser db email password now).2.2 =
      .error (.unauthorized "이메일 또는 비밀번호가 올바르지 않습니다") ∧
    (validateUser db email password now).2.2 ≠
      .error (.unauthorized
        "소셜 로그인으로 가입된 계정입니다. 해당 소셜 로그인을 이용해주세요.") := by
  have hres : (validateUser db email password now).2.2 =
      .error (.unauthorized "이메일 또는 비밀번호가 올바르지 않습니다") := by
    rw [validateUser]
    simp only [hfind, hpw, Option.getD_none]
    rfl
  refine ⟨hres, ?_⟩
  rw [hres]
  intro hc
  have hmsg : ("이메일 또는 비밀번호가 올바르지 않습니다" : String) =
      "소셜 로그인으로 가입된 계정입니다. 해당 소셜 로그인을 이용해주세요." := by
    injection hc with hc1
    injection hc1
  exact absurd hmsg (by decide)

/-- Witness for `validateUser_nullpassword_generic_error` at the concrete
OAuth account with no password hash. -/
theorem validateUser_nullpassword_generic_error_witness :
    findUserByEmail mixedDb "oauth@example.com" = some oauthUser ∧
    oauthUser.password = none ∧
    (validateUser mixedDb "oauth@example.com" "hunter2" 0).2.2 =
      .error (.unauthorized "이메일 또는 비밀번호가 올바르지 않습니다") :=
  ⟨rfl, rfl,
    (validateUser_nullpassword_generic_error mixedDb "oauth@example.com" "hunter2" 0
      oauthUser rfl rfl).1⟩

/-- C7: a call with a wrong password for an existing password account and
a call with a non-existent email return the identical generic
InvalidCredentials error value, leave the state unchanged, and each
perform exactly one bcrypt comparison (against the stored hash
resp. against the fixed dummy hash) — the mechanism behind the
statistically indistinguishable timing. -/
theorem validateUser_enumeration_resistant
    (db : Db) (e1 e2 pw1 pw2 : String) (now1 now2 : Nat) (u : User) (h : PwHash)
    (h1 : findUserByEmail db e1 = some u)
    (hp : u.password = some h)
    (hwrong : comparePassword pw1 h = false)
    (h2 : findUserByEmail db e2 = none) :
    (validateUser db e1 pw1 now1).2.2 =
      .error (.unauthorized "이메일 또는 비밀번호가 올바르지 않습니다") ∧
    (validateUser db e2 pw2 now2).2.2 =
      .error (.unauthorized "이메일 또는 비밀번호가 올바르지 않습니다") ∧
    (validateUser db e1 pw1 now1).2.2 = (validateUser db e2 pw2 now2).2.2 ∧
    (validateUser db e1 pw1 now1).2.1 = [h] ∧
    (validateUser db e2 pw2 now2).2.1 = [dummyHash] ∧
    (validateUser db e1 pw1 now1).2.1.length =
      (validateUser db e2 pw2 now2).2.1.length ∧
    (validateUser db e1 pw1 now1).1 = db ∧
    (validateUser db e2 pw2 now2).1 = db := by
  have hv1 : validateUser db e1 pw1 now1 =
      (db, [h], .error (.unauthorized "이메일 또는 비밀번호가 올바르지 않습니다")) := by
    rw [validateUser]
    simp only [h1, hp, Option.getD_some, hwrong]
    rfl
  have hv2 : validateUser db e2 pw2 now2 =
      (db, [dummyHash], .error (.unauthorized "이메일 또는 비밀번호가 올바르지 않습니다")) := by
    rw [validateUser]
    simp only [h2]
  rw [hv1, hv2]
  exact ⟨rfl, rfl, rfl, rfl, rfl, rfl, rfl, rfl⟩

/-- Witness for `validateUser_enumeration_resistant`: wrong password for
the sample account versus an email with no account. -/
theorem validateUser_enumeration_resistant_witness :
    findUserByEmail mixedDb "alice@example.com" = some sampleUser ∧
    sampleUser.password = some (PwHash.bcrypt "Passw0rd!") ∧
    comparePassword "wrong-password" (PwHash.bcrypt "Passw0rd!") = false ∧
    findUserByEmail mixedDb "nobody@example.com" = none ∧
    (validateUser mixedDb "alice@example.com" "wrong-password" 3).2.2 =
      .error (.unauthorized "이메일 또는 비밀번호가 올바르지 않습니다") ∧
    (validateUser mixedDb "alice@example.com" "wrong-password" 3).2.2 =
      (validateUser mixedDb "nobody@example.com" "anything" 4).2.2 :=
  ⟨rfl, rfl, by decide, by decide,
    (validateUser_enumeration_resistant mixedDb "alice@example.com" "nobody@example.com"
      "wrong-password" "anything" 3 4 sampleUser (PwHash.bcrypt "Passw0rd!")
      rfl rfl (by decide) (by decide)).1,
    (validateUser_enumeration_resistant mixedDb "alice@example.com" "nobody@example.com"
      "wrong-password" "anything" 3 4 sampleUser (PwHash.bcrypt "Passw0rd!")
      rfl rfl (by decide) (by decide)).2.2.1⟩

end NestAuth
namespace NestAuth

/-- C6 (counterexample to the claim as stated): with max-attempts 5, the
5th wrong-code call already consumes the code and fails with
TooManyAttempts, so the 6th call — even with the correct code — fails
with the NoActiveCode message, not with TooManyAttempts. -/
theorem verifyEmail_sixth_attempt_not_toomany :
    attempt5.2 = .error (.badRequest
      "인증 시도 횟수를 초과했습니다. 인증 코드를 다시 요청해주세요.") ∧
    attempt6.2 = .error (.badRequest
      "유효한 인증 코드가 없습니다. 인증 코드를 다시 요청해주세요.") ∧
    attempt6.2 ≠ .error (.badRequest
      "인증 시도 횟수를 초과했습니다. 인증 코드를 다시 요청해주세요.") := by
  refine ⟨rfl, rfl, ?_⟩
  intro hc
  rw [show attempt6.2 = .error (.badRequest
    "유효한 인증 코드가 없습니다. 인증 코드를 다시 요청해주세요.") from rfl] at hc
  injection hc with hc1
  injection hc1 with hc2
  exact absurd hc2 (by decide)

/-- C6 (amended): for a live code with max-attempts 5, the counter is
incremented before the comparison is trusted; the 5th consecutive wrong
call (counter reaching the max) consumes the code and fails with
TooManyAttempts, as does any call finding the counter already at the max;
once the code is consumed, a further call — even with the correct code —
fails with NoActiveCode. -/
theorem verifyEmail_attempt_limit
    (db : Db) (userId code : String) (now : Nat) (t : EmailVerificationToken)
    (hlatest : latestLiveToken db userId now = some t)
    (hsix : isSixDigitCode code = true)
    (hmax : t.maxAttempts = 5) :
    (5 ≤ t.attempts →
      verifyEmail db userId code now =
        ({ db with emailVerificationTokens :=
            consumeToken db.emailVerificationTokens t.id now },
         .error (.badRequest "인증 시도 횟수를 초과했습니다. 인증 코드를 다시 요청해주세요."))) ∧
    (t.attempts = 4 → t.tokenHash ≠ hashToken code →
      verifyEmail db userId code now =
        ({ db with emailVerificationTokens :=
            consumeToken (incrementAttempts db.emailVerificationTokens t.id) t.id now },
         .error (.badRequest "인증 시도 횟수를 초과했습니다. 인증 코드를 다시 요청해주세요."))) ∧
    (t.attempts < 4 → t.tokenHash ≠ hashToken code →
      verifyEmail db userId code now =
        ({ db with emailVerificationTokens :=
            (incrementAttempts db.emailVerificationTokens t.id) },
         .error (.badRequest ("잘못된 인증 코드입니다 (남은 시도: " ++
           toString (t.maxAttempts - t.attempts - 1) ++ "회)")))) ∧
    (∀ db2 code2, latestLiveToken db2 userId now = none → isSixDigitCode code2 = true →
      verifyEmail db2 userId code2 now =
        (db2, .error (.badRequest
          "유효한 인증 코드가 없습니다. 인증 코드를 다시 요청해주세요."))) := by
  refine ⟨?_, ?_, ?_, ?_⟩
  · intro hge
    rw [verifyEmail]
    simp only [hsix, Bool.not_true, Bool.false_eq_true, if_false, hlatest]
    rw [if_pos (by omega)]
  · intro ha hne
    rw [verifyEmail]
    simp only [hsix, Bool.not_true, Bool.false_eq_true, if_false, hlatest]
    rw [if_neg (by omega), if_pos hne, if_pos (by rw [hmax, ha]; decide)]
  · intro ha hne
    rw [verifyEmail]
    simp only [hsix, Bool.not_true, Bool.false_eq_true, if_false, hlatest]
    rw [if_neg (by omega), if_pos hne, if_neg (by rw [hmax]; simp; omega)]
  · intro db2 code2 hnone hsix2
    rw [verifyEmail]
    simp only [hsix2, Bool.not_true, Bool.false_eq_true, if_false, hnone]

/-- Witness for `verifyEmail_attempt_limit`: first wrong attempt against
the concrete live code increments the counter and reports 4 attempts
left. -/
theorem verifyEmail_attempt_limit_witness :
    latestLiveToken codeDb "u1" 10 = some sampleCode ∧
    isSixDigitCode "000000" = true ∧
    sampleCode.maxAttempts = 5 ∧
    verifyEmail codeDb "u1" "000000" 10 =
      ({ codeDb with emailVerificationTokens :=
          (incrementAttempts codeDb.emailVerificationTokens sampleCode.id) },
       .error (.badRequest ("잘못된 인증 코드입니다 (남은 시도: " ++
         toString (sampleCode.maxAttempts - sampleCode.attempts - 1) ++ "회)"))) :=
  ⟨rfl, by decide, rfl,
    (verifyEmail_attempt_limit codeDb "u1" "000000" 10 sampleCode rfl (by decide)
      rfl).2.2.1 (by decide) (by decide)⟩

end NestAuth
namespace NestAuth

/-- A per-row update that fixes matching rows and never creates new
matches leaves a filter unchanged. -/
theorem filter_map_eq_of_fix {α : Type} (p : α → Bool) (g : α → α) (l : List α)
    (hfix : ∀ a, p a = true → g a = a) (hpg : ∀ a, p (g a) = p a) :
    (l.map g).filter p = l.filter p := by
  induction l with
  | nil => rfl
  | cons a l ih =>
    by_cases hpa : p a = true
    · rw [List.map_cons, hfix a hpa, List.filter_cons_of_pos hpa,
        List.filter_cons_of_pos hpa, ih]
    · have hga : p (g a) = false := by
        rw [hpg]
        exact Bool.not_eq_true _ |>.mp hpa
      rw [List.map_cons, List.filter_cons_of_neg (by simp [hga]),
        List.filter_cons_of_neg (by simpa using hpa), ih]

/-- Incrementing the attempt counter does not change liveness. -/
theorem isLive_increment (a : EmailVerificationToken) (id : Nat) (userId : String)
    (now : Nat) :
    isLive (if a.id == id then { a with attempts := a.attempts + 1 } else a) userId now
      = isLive a userId now := by
  by_cases hpa : (a.id == id) = true
  · rw [if_pos hpa]
    rfl
  · rw [if_neg (by simpa using hpa)]

/-- Consuming a code cannot increase the number of live codes. -/
theorem length_live_consume_le (l : List EmailVerificationToken) (id : Nat)
    (tnow : Nat) (userId : String) (now : Nat) :
    ((consumeToken l id tnow).filter (fun t => isLive t userId now)).length ≤
      (l.filter (fun t => isLive t userId now)).length := by
  apply length_filter_map_le
  intro a ha
  by_cases hpa : (a.id == id) = true
  · rw [if_pos hpa] at ha
    simp [isLive] at ha
  · rwa [if_neg (by simpa using hpa)] at ha

/-- Incrementing the attempt counter cannot increase the number of live
codes. -/
theorem length_live_increment_le (l : List EmailVerificationToken) (id : Nat)
    (userId : String) (now : Nat) :
    ((incrementAttempts l id).filter (fun t => isLive t userId now)).length ≤
      (l.filter (fun t => isLive t userId now)).length := by
  apply length_filter_map_le
  intro a ha
  rwa [isLive_increment] at ha

/-- Every row targeted by a consume carries the consumption timestamp. -/
theorem mem_consumeToken (l : List EmailVerificationToken) (id : Nat) (tnow : Nat) :
    ∀ x ∈ consumeToken l id tnow, x.id = id → x.verifiedAt = some tnow := by
  intro x hx hid
  simp only [consumeToken, List.mem_map] at hx
  obtain ⟨a, _, ha⟩ := hx
  by_cases hpa : (a.id == id) = true
  · rw [if_pos hpa] at ha
    rw [← ha]
  · rw [if_neg (by simpa using hpa)] at ha
    rw [← ha] at hid
    exact absurd hid (by simpa using hpa)

/-- The verification-token table after a `verifyEmail` call is the old
table, a consume, an increment, or an increment followed by a consume. -/
theorem verifyEmail_tokens_cases (db : Db) (userId code : String) (now : Nat) :
    (verifyEmail db userId code now).1.emailVerificationTokens
        = db.emailVerificationTokens ∨
    (∃ id, (verifyEmail db userId code now).1.emailVerificationTokens
        = consumeToken db.emailVerificationTokens id now) ∨
    (∃ id, (verifyEmail db userId code now).1.emailVerificationTokens
        = incrementAttempts db.emailVerificationTokens id) ∨
    (∃ id, (verifyEmail db userId code now).1.emailVerificationTokens
        = consumeToken (incrementAttempts db.emailVerificationTokens id) id now) := by
  rw [verifyEmail]
  by_cases h6 : (!isSixDigitCode code) = true
  · rw [if_pos h6]
    left
    rfl
  · rw [if_neg h6]
    cases hl : latestLiveToken db userId now with
    | none => left; rfl
    | some t =>
      dsimp only
      by_cases hm : t.maxAttempts ≤ t.attempts
      · rw [if_pos hm]
        right; left
        exact ⟨t.id, rfl⟩
      · rw [if_neg hm]
        by_cases hh : t.tokenHash ≠ hashToken code
        · rw [if_pos hh]
          by_cases hr : (t.maxAttempts - t.attempts - 1 == 0) = true
          · rw [if_pos hr]
            right; right; right
            exact ⟨t.id, rfl⟩
          · rw [if_neg hr]
            right; right; left
            exact ⟨t.id, rfl⟩
        · rw [if_neg hh]
          cases hu : findUserById db t.userId with
          | none =>
            dsimp only
            rw [if_neg (by simp)]
            right; right; right
            exact ⟨t.id, rfl⟩
          | some u =>
            dsimp only
            by_cases huv : u.isVerified = true
            · rw [if_pos huv]
              right; right; left
              exact ⟨t.id, rfl⟩
            · rw [if_neg huv]
              right; right; right
              exact ⟨t.id, rfl⟩

end NestAuth
namespace NestAuth

/-- C8 (counterexample to the claim as stated): for an already-verified
account, `verifyEmail` with the correct code returns the harmless success
without consuming the code — the code stays live, so "VerifyCode consumes
the code on success" fails as stated. -/
theorem verifyEmail_already_verified_leaves_code_live :
    (verifyEmail verifiedCodeDb "u1" "123456" 10).2 = .ok "이미 인증된 계정입니다" ∧
    (liveTokensFor (verifyEmail verifiedCodeDb "u1" "123456" 10).1 "u1" 10).length = 1 :=
  ⟨rfl, rfl⟩

/-- C8 (amended): at most one live verification code per account.
Issuing consumes all prior unconsumed codes of the account and leaves it
with exactly one live code; `verifyEmail` preserves the invariant and
consumes the code on attempt exhaustion, on the final failed attempt, and
on success for a not-yet-verified account (re-verifying an
already-verified account succeeds without consuming). -/
theorem verification_code_single_live_invariant
    (db : Db) (userId code code2 : String) (now : Nat) (newId : Nat)
    (hinv : atMostOneLive db now) :
    (liveTokensFor (sendVerificationEmail db userId code now newId) userId now).length = 1 ∧
    atMostOneLive (sendVerificationEmail db userId code now newId) now ∧
    atMostOneLive (verifyEmail db userId code2 now).1 now ∧
    (∀ t, latestLiveToken db userId now = some t → isSixDigitCode code2 = true →
      ((t.maxAttempts ≤ t.attempts →
        ∀ x ∈ (verifyEmail db userId code2 now).1.emailVerificationTokens,
          x.id = t.id → x.verifiedAt = some now) ∧
       (t.attempts + 1 = t.maxAttempts → t.tokenHash ≠ hashToken code2 →
        ∀ x ∈ (verifyEmail db userId code2 now).1.emailVerificationTokens,
          x.id = t.id → x.verifiedAt = some now) ∧
       (t.attempts < t.maxAttempts → t.tokenHash = hashToken code2 →
        ∀ u, findUserById db t.userId = some u → u.isVerified = false →
          ∀ x ∈ (verifyEmail db userId code2 now).1.emailVerificationTokens,
            x.id = t.id → x.verifiedAt = some now))) := by
  have hselffilter : ∀ uid2,
      liveTokensFor (sendVerificationEmail db userId code now newId) uid2 now =
        (db.emailVerificationTokens.map (fun t =>
          if t.userId == userId && t.verifiedAt.isNone then
            { t with verifiedAt := some now } else t)).filter (fun t => isLive t uid2 now)
        ++ ([freshVerificationToken userId code now newId].filter
            (fun t => isLive t uid2 now)) := by
    intro uid2
    rw [liveTokensFor, sendVerificationEmail]
    exact List.filter_append _ _
  have hmapnil : (db.emailVerificationTokens.map (fun t =>
      if t.userId == userId && t.verifiedAt.isNone then
        { t with verifiedAt := some now } else t)).filter
        (fun t => isLive t userId now) = [] := by
    rw [List.filter_eq_nil_iff]
    intro a' ha'
    simp only [List.mem_map] at ha'
    obtain ⟨a, _, rfl⟩ := ha'
    by_cases hc : (a.userId == userId && a.verifiedAt.isNone) = true
    · rw [if_pos hc]
      simp [isLive]
    · rw [if_neg hc]
      rw [Bool.and_eq_true] at hc
      simp only [isLive, Bool.and_eq_true, decide_eq_true_iff, not_and]
      intro h1 h2
      exact absurd h1 hc
  have hone : (liveTokensFor (sendVerificationEmail db userId code now newId)
      userId now).length = 1 := by
    rw [hselffilter userId, hmapnil]
    rw [List.filter_cons_of_pos]
    · rfl
    · simp only [isLive, freshVerificationToken, beq_self_eq_true, Option.isNone_none,
        Bool.true_and]
      simp only [decide_eq_true_iff, EMAIL_VERIFICATION_EXPIRY_MS]
      omega
  refine ⟨hone, ?_, ?_, ?_⟩
  · intro uid2
    by_cases heq : uid2 = userId
    · rw [heq, hone]
    · have hnew : ([freshVerificationToken userId code now newId].filter
            (fun t => isLive t uid2 now)) = [] := by
        rw [List.filter_eq_nil_iff]
        intro a ha
        rw [List.mem_singleton] at ha
        rw [ha]
        have huid : (userId == uid2) = false := by
          rw [beq_eq_false_iff_ne]
          exact fun hx => heq hx.symm
        simp [isLive, freshVerificationToken, huid]
      have hmapsame : (db.emailVerificationTokens.map (fun t =>
          if t.userId == userId && t.verifiedAt.isNone then
            { t with verifiedAt := some now } else t)).filter
            (fun t => isLive t uid2 now)
          = db.emailVerificationTokens.filter (fun t => isLive t uid2 now) := by
        apply filter_map_eq_of_fix
        · intro a hpa
          rw [if_neg]
          intro hc
          rw [Bool.and_eq_true, beq_iff_eq] at hc
          simp only [isLive, Bool.and_eq_true, beq_iff_eq] at hpa
          exact heq (hpa.1.1 ▸ hc.1 ▸ rfl)
        · intro a
          by_cases hc : (a.userId == userId && a.verifiedAt.isNone) = true
          · rw [if_pos hc]
            rw [Bool.and_eq_true, beq_iff_eq] at hc
            have hne2 : (a.userId == uid2) = false := by
              rw [beq_eq_false_iff_ne, hc.1]
              exact fun hx => heq hx.symm
            simp [isLive, hne2]
          · rw [if_neg hc]
      rw [hselffilter uid2, hnew, hmapsame, List.append_nil]
      exact hinv uid2
  · intro uid2
    rcases verifyEmail_tokens_cases db userId code2 now with h | ⟨id, h⟩ | ⟨id, h⟩ | ⟨id, h⟩
    · rw [liveTokensFor, h]
      exact hinv uid2
    · rw [liveTokensFor, h]
      exact le_trans (length_live_consume_le _ _ _ _ _) (hinv uid2)
    · rw [liveTokensFor, h]
      exact le_trans (length_live_increment_le _ _ _ _) (hinv uid2)
    · rw [liveTokensFor, h]
      exact le_trans (length_live_consume_le _ _ _ _ _)
        (le_trans (length_live_increment_le _ _ _ _) (hinv uid2))
  · intro t hlatest hsix
    refine ⟨?_, ?_, ?_⟩
    · intro hm x hx hid
      have hres : (verifyEmail db userId code2 now).1.emailVerificationTokens
          = consumeToken db.emailVerificationTokens t.id now := by
        rw [verifyEmail]
        simp only [hsix, Bool.not_true, Bool.false_eq_true, if_false, hlatest]
        rw [if_pos hm]
      rw [hres] at hx
      exact mem_consumeToken _ _ _ x hx hid
    · intro hfin hne x hx hid
      have hres : (verifyEmail db userId code2 now).1.emailVerificationTokens
          = consumeToken (incrementAttempts db.emailVerificationTokens t.id) t.id now := by
        rw [verifyEmail]
        simp only [hsix, Bool.not_true, Bool.false_eq_true, if_false, hlatest]
        rw [if_neg (by omega), if_pos hne, if_pos (by simp only [beq_iff_eq]; omega)]
      rw [hres] at hx
      exact mem_consumeToken _ _ _ x hx hid
    · intro hlt hmatch u hu hnv x hx hid
      have hres : (verifyEmail db userId code2 now).1.emailVerificationTokens
          = consumeToken (incrementAttempts db.emailVerificationTokens t.id) t.id now := by
        rw [verifyEmail]
        simp only [hsix, Bool.not_true, Bool.false_eq_true, if_false, hlatest]
        rw [if_neg (by omega), if_neg (by simp [hmatch]), hu]
        dsimp only
        rw [if_neg (by simp [hnv])]
      rw [hres] at hx
      exact mem_consumeToken _ _ _ x hx hid

/-- Witness for `verification_code_single_live_invariant` at the concrete
one-code database. -/
theorem verification_code_single_live_invariant_witness :
    (liveTokensFor (sendVerificationEmail codeDb "u1" "654321" 10 1) "u1" 10).length = 1 ∧
    atMostOneLive (verifyEmail codeDb "u1" "000000" 10).1 10 :=
  ⟨(verification_code_single_live_invariant codeDb "u1" "654321" "000000" 10 1
      (fun uid2 => List.length_filter_le _ _)).1,
   (verification_code_single_live_invariant codeDb "u1" "654321" "000000" 10 1
      (fun uid2 => List.length_filter_le _ _)).2.2.1⟩

end NestAuth
namespace NestAuth

/-- Exact preimage count of a 6-digit code under the mod-900000 reduction
of a uniform 3-byte value. -/
theorem codePreimages_card (c : Nat) (h1 : 100000 ≤ c) (h2 : c ≤ 999999) :
    (codePreimages c).card = 18 + (if c < 677216 then 1 else 0) := by
  have hr : 0 < 900000 := by norm_num
  have hconv : codePreimages c =
      (Finset.range (2 ^ 24)).filter (fun x => x ≡ (c - 100000) [MOD 900000]) := by
    rw [codePreimages]
    apply Finset.filter_congr
    intro x _
    rw [generateVerificationCode, Nat.ModEq,
      Nat.mod_eq_of_lt (show c - 100000 < 900000 by omega)]
    omega
  rw [hconv, ← Nat.count_eq_card_filter_range,
    Nat.count_modEq_card _ hr _,
    Nat.mod_eq_of_lt (show c - 100000 < 900000 by omega)]
  norm_num
  split_ifs with ha hb hb
  · rfl
  · exact absurd (by omega) hb
  · exact absurd (by omega) ha
  · rfl

/-- C9 (amended): every generated code is a 6-digit number in
100000–999999, and the distribution over a uniform 3-byte source is only
approximately uniform: a code below 677216 has 19 preimages, any other 18
(the modulo bias of reducing 2 ^ 24 values mod 900000). -/
theorem generateVerificationCode_range_and_bias (b c : Nat)
    (hc1 : 100000 ≤ c) (hc2 : c ≤ 999999) :
    100000 ≤ generateVerificationCode b ∧ generateVerificationCode b ≤ 999999 ∧
    (codePreimages c).card = 18 + (if c < 677216 then 1 else 0) ∧
    ((codePreimages c).card = 19 ∨ (codePreimages c).card = 18) := by
  have hb := Nat.mod_lt b (show 0 < 900000 by norm_num)
  refine ⟨by rw [generateVerificationCode]; omega,
    by rw [generateVerificationCode]; omega,
    codePreimages_card c hc1 hc2, ?_⟩
  rw [codePreimages_card c hc1 hc2]
  split_ifs
  · left; rfl
  · right; rfl

/-- Witness for `generateVerificationCode_range_and_bias` at concrete
values. -/
theorem generateVerificationCode_range_and_bias_witness :
    100000 ≤ generateVerificationCode 42 ∧ generateVerificationCode 42 ≤ 999999 ∧
    (codePreimages 123456).card = 18 + (if (123456 : Nat) < 677216 then 1 else 0) :=
  ⟨(generateVerificationCode_range_and_bias 42 123456 (by norm_num) (by norm_num)).1,
   (generateVerificationCode_range_and_bias 42 123456 (by norm_num) (by norm_num)).2.1,
   (generateVerificationCode_range_and_bias 42 123456 (by norm_num) (by norm_num)).2.2.1⟩

/-- C9 (counterexample to exact uniformity): code 100000 has 19 preimages
among the 2 ^ 24 equally likely 3-byte values while code 999999 has 18,
so not every code has the same number of preimages. -/
theorem generateVerificationCode_not_uniform :
    (codePreimages 100000).card = 19 ∧ (codePreimages 999999).card = 18 ∧
    (codePreimages 100000).card ≠ (codePreimages 999999).card := by
  have h1 : (codePreimages 100000).card = 19 := by
    rw [codePreimages_card 100000 (by norm_num) (by norm_num)]
    norm_num
  have h2 : (codePreimages 999999).card = 18 := by
    rw [codePreimages_card 999999 (by norm_num) (by norm_num)]
    norm_num
  refine ⟨h1, h2, ?_⟩
  rw [h1, h2]
  norm_num

end NestAuth
